import Mathlib

/-!
# LayerView (layerJS, `src/framework/layerview.js`)

A shallow embedding of the frame-transition engine of `LayerView`:
argument resolution of `transitionTo`, the promise chain it returns,
`showFrame`, `getCurrentTransform`, `gestureCanScroll`,
`_renderChildPosition`, the scroll listener over the prepared-transition
cache and the scroller reconciliation done by the constructor.

JavaScript objects owned by the layer become an explicit `Layer` state.
Calls into external collaborators (the layout strategy, the observer of a
child view) are appended to `Layer.log`, in call order.  A JavaScript
exception is an `Err`; a function that can throw returns the state it left
behind together with either the error or its result.  Scroll offsets and
extents are integers.
-/

namespace LayerJS

/-! ## Values -/

/-- A JavaScript exception: a `TypeError` raised by the engine (property access
on `undefined`/`null`, call of a non-function), or a value thrown by the code
itself (the source throws bare strings). -/
inductive Err where
  | typeError
  | thrown (msg : String)
  deriving DecidableEq, Repr

/-- A transition descriptor (`TransitionRequest`); an absent property is `none`.
`showFrame` reads the same shape as its `scrollData`. -/
structure Transition where
  framename : Option String := none
  type : Option String := none
  duration : Option String := none
  startPosition : Option String := none
  scrollX : Option Int := none
  scrollY : Option Int := none
  deriving DecidableEq, Repr

/-- What a caller may pass as first argument of `transitionTo`. -/
inductive FrameArg where
  | undefined
  | null
  | str (s : String)
  | obj (t : Transition)
  deriving DecidableEq, Repr

/-- What a caller may pass as a transition / scroll-data argument. -/
inductive TransitionArg where
  | undefined
  | null
  | obj (t : Transition)
  deriving DecidableEq, Repr

/-- A child view of the layer. -/
structure Frame where
  name : String
  deriving DecidableEq, Repr

/-- The containing context of a layer (`this.parent`). -/
structure Stage where
  width : Int
  height : Int
  deriving DecidableEq, Repr

/-- Per-frame transform data (`frame.getTransformData(stage, startPosition)`). -/
structure TransformData where
  isScrollX : Bool
  isScrollY : Bool
  maxScrollX : Int
  maxScrollY : Int
  shiftX : Int := 0
  shiftY : Int := 0
  deriving DecidableEq, Repr

/-- The descriptor a `ScrollTransformer` produces; opaque to the layer. -/
abbrev Transform := String

/-- An entry of `_preparedTransitions`. -/
structure PreparedTransition where
  _dirty : Bool
  deriving DecidableEq, Repr

/-- The object `_preparedTransitions`: own properties in `Object.keys` order. -/
abbrev Cache := List (String × PreparedTransition)

/-- A call made by the layer on an external collaborator. -/
inductive Call where
  | loadFrame (frame : Frame)
  | layoutShowFrame (frame : Frame) (tfd : TransformData) (transform : Transform)
  | layoutTransitionTo (frame : Frame) (transition : Transition) (tfd : TransformData)
      (transform : Transform)
  | setLayerTransform (transform : Transform)
  | disableObserver (child : Frame)
  | renderFramePosition (child : Frame) (transform : Option Transform)
  | enableObserver (child : Frame)
  deriving DecidableEq, Repr

/-- The mutable state of a `LayerView` that this file reads or writes. -/
structure Layer where
  children : List Frame := []
  stage : Option Stage := none
  currentFrame : Option Frame := none
  currentTransform : Option Transform := none
  _currentTransform : Option Transform := none
  _currentFrameTransformData : Option TransformData := none
  _preparedTransitions : Cache := []
  scrollTop : Int := 0
  scrollLeft : Int := 0
  log : List Call := []
  deriving DecidableEq, Repr

/-- The collaborators whose code lives outside `layerview.js`: the frame's
`getTransformData` and the two operations of the `ScrollTransformer` (either the
one the layout supplies or the default one).  The transformer is bound to its
layer, so it sees the layer state at the time of the call; a missing fourth
argument of `getScrollTransform` is `false`. -/
structure Collaborators where
  getTransformData : Frame → Option Stage → Option String → TransformData
  getScrollTransform : Layer → TransformData → Int → Int → Bool → Transform
  getScrollIntermediateTransform : Layer → TransformData → Int → Int → Transform

/-- The state a call leaves behind and what it returned or threw. -/
structure Outcome (α : Type) where
  state : Layer
  result : Except Err α

/-! ## JavaScript primitives used by `transitionTo` -/

/-- Truthiness of a value (`!!v`). -/
def truthy : FrameArg → Bool
  | .undefined => false
  | .null => false
  | .str s => s != ""
  | .obj _ => true

/-- The test `typeof v === 'object'`; it holds for `null` too. -/
def typeofObject : FrameArg → Bool
  | .null => true
  | .obj _ => true
  | _ => false

/-- String conversion of a value in a `+` concatenation. -/
def toStr : FrameArg → String
  | .undefined => "undefined"
  | .null => "null"
  | .str s => s
  | .obj _ => "[object Object]"

/-- The assignment `transition = framename` for a first argument that passed the
`typeof` test. -/
def asTransition : FrameArg → TransitionArg
  | .obj t => .obj t
  | .null => .null
  | _ => .undefined

/-- The property read `transition.framename`: a `TypeError` on `undefined` and
`null`, `undefined` for an absent property. -/
def readFramename : TransitionArg → Except Err FrameArg
  | .undefined => .error .typeError
  | .null => .error .typeError
  | .obj t =>
    match t.framename with
    | some s => .ok (.str s)
    | none => .ok .undefined

/-- The expression `framename || transition.framename`. -/
def orFramename (framename : FrameArg) (transition : TransitionArg) : Except Err FrameArg :=
  if truthy framename then .ok framename else readFramename transition

/-- Modelled from the spec: `GroupView.getChildViewByName` (groupview.js is not
part of the sources).  A frame is identified by a unique name within its layer
and is resolved by that name among the children; a value that is not a string
names no frame. -/
def getChildViewByName (L : Layer) : FrameArg → Option Frame
  | .str s => L.children.find? (fun f => f.name == s)
  | _ => none

/-- Modelled from the spec: `Kern._extend` (Kern.js is not part of the sources),
as it is used in `transitionTo`: the caller-supplied fields of
`transition || {}` are overlaid onto the defaults `type: 'default'` and
`duration: '1s'`. -/
def withDefaults : TransitionArg → Transition
  | .obj t =>
    { t with type := some (t.type.getD "default"), duration := some (t.duration.getD "1s") }
  | _ => { type := some "default", duration := some "1s" }

/-- The value `transition || {}` / `scrollData || {}`. -/
def orEmpty : TransitionArg → Transition
  | .obj t => t
  | _ => {}

/-! ## The promise chain -/

/-- Modelled from the spec: the futures of `Kern.Promise` (Kern.js is not part of
the sources).  A `then` callback runs once the future it hangs on has fulfilled;
a chain whose callback returns a future is settled by that future; a rejection
skips the callbacks and propagates to the returned future.

A value is the state of the promise chain a call has set up.  Each waiting state
names the layout future it waits for and carries what its `then` callback closes
over. -/
inductive Future where
  /-- `transitionTo`: `_layout.loadFrame(frame)` is pending. -/
  | awaitLoad (frame : Frame) (transition : Transition)
  /-- `transitionTo`: `_layout.transitionTo(...)` is pending. -/
  | awaitTransition (tfd : TransformData) (transition : Transition)
  /-- `showFrame`: `_layout.loadFrame(frame)` is pending. -/
  | awaitShowLoad (frame : Frame) (scrollData : Transition)
  | fulfilled
  | rejected
  deriving DecidableEq, Repr

/-- How the layout future that a chain waits for settles. -/
inductive Settlement where
  | fulfil
  | reject
  deriving DecidableEq, Repr

/-! ## Operations of `LayerView` -/

/-- The method `showFrame(framename, scrollData)`, up to its return: `none` is the silent
return of a layer without stage, `some` the chain hung on `loadFrame`. -/
def showFrame (L : Layer) (framename : String) (scrollData : TransitionArg) :
    Outcome (Option Future) :=
  match L.stage with
  | none => ⟨L, .ok none⟩
  | some _ =>
    let scrollData := orEmpty scrollData
    match getChildViewByName L (.str framename) with
    | none => ⟨L, .error (.thrown ("transformTo: " ++ framename ++ " does not exist in layer"))⟩
    | some frame =>
      ⟨{ L with log := L.log ++ [.loadFrame frame] }, .ok (some (.awaitShowLoad frame scrollData))⟩

/-- The method `transitionTo(framename, transition)`, up to its return: the synchronous
part ends either in a throw or in the call `_layout.loadFrame(frame)` whose
`then` chain is returned. -/
def transitionTo (L : Layer) (framename : FrameArg) (transition : TransitionArg) :
    Outcome Future :=
  -- is framename omitted?
  let transition := if typeofObject framename then asTransition framename else transition
  match orFramename framename transition with
  | .error e => ⟨L, .error e⟩
  | .ok framename =>
    if !truthy framename then ⟨L, .error (.thrown "transformTo: no frame given")⟩
    else
      -- transition omitted? create some default
      let transition := withDefaults transition
      -- lookup frame by framename
      match getChildViewByName L framename with
      | none =>
        ⟨L, .error (.thrown ("transformTo: " ++ toStr framename ++ " does not exist in layer"))⟩
      | some frame =>
        ⟨{ L with log := L.log ++ [.loadFrame frame] }, .ok (.awaitLoad frame transition)⟩

/-- One settlement of the layout future a chain waits for: the `then` callback of
that state runs on `fulfil`; on `reject` the chain rejects and no callback runs. -/
def settle (E : Collaborators) (L : Layer) : Future → Settlement → Layer × Future
  | .awaitLoad frame transition, .fulfil =>
    let targetFrameTransformData := E.getTransformData frame L.stage transition.startPosition
    let T := E.getScrollTransform L targetFrameTransformData
      (transition.scrollX.getD 0) (transition.scrollY.getD 0) true
    ({ L with
        currentTransform := some T
        log := L.log ++ [.layoutTransitionTo frame transition targetFrameTransformData T] },
      .awaitTransition targetFrameTransformData transition)
  | .awaitTransition targetFrameTransformData transition, .fulfil =>
    let T := E.getScrollIntermediateTransform L targetFrameTransformData
      (transition.scrollX.getD 0) (transition.scrollY.getD 0)
    ({ L with currentTransform := some T, log := L.log ++ [.setLayerTransform T] }, .fulfilled)
  | .awaitShowLoad frame scrollData, .fulfil =>
    let targetFrameTransformData := E.getTransformData frame L.stage scrollData.startPosition
    let T := E.getScrollTransform L targetFrameTransformData
      (scrollData.scrollX.getD 0) (scrollData.scrollY.getD 0) false
    ({ L with
        currentTransform := some T
        log := L.log ++ [.layoutShowFrame frame targetFrameTransformData T] },
      .fulfilled)
  | .fulfilled, _ => (L, .fulfilled)
  | .rejected, _ => (L, .rejected)
  | _, .reject => (L, .rejected)

/-- The accessor `getCurrentTransform()`. -/
def getCurrentTransform (L : Layer) : Option Transform :=
  L.currentTransform

/-- The query `gestureCanScroll(direction)`; reading a property of an unset
`_currentFrameTransformData` is a `TypeError`. -/
def gestureCanScroll (L : Layer) (direction : String) : Except Err Bool :=
  match L._currentFrameTransformData with
  | some tfd =>
    if direction = "up" && tfd.isScrollY && decide (L.scrollTop > 0) then .ok true
    else if direction = "down" && tfd.isScrollY && decide (L.scrollTop < tfd.maxScrollY) then
      .ok true
    else if direction = "left" && tfd.isScrollX && decide (L.scrollLeft > 0) then .ok true
    else if direction = "right" && tfd.isScrollX && decide (L.scrollLeft < tfd.maxScrollX) then
      .ok true
    else .ok false
  | none =>
    if direction = "up" || direction = "down" || direction = "left" || direction = "right" then
      .error .typeError
    else .ok false

/-- The method `_renderChildPosition(childView)`. -/
def _renderChildPosition (L : Layer) (childView : Frame) : Layer :=
  { L with
    log := L.log ++ [.disableObserver childView,
      .renderFramePosition childView L._currentTransform,
      .enableObserver childView] }

/-! ## The scroll listener -/

/-- The assignment `that._preparedTransitions[key]._dirty = true`: `none` when the
object has no property `key`, so that the assignment target is `undefined`. -/
def setDirty (key : String) : Cache → Option Cache
  | [] => none
  | (k, e) :: rest =>
    if k = key then some ((k, { e with _dirty := true }) :: rest)
    else (setDirty key rest).map (fun r => (k, e) :: r)

/-- The `for` loop of the scroll listener with `remaining` iterations to go out of
`len = keys.length`; iteration `i` addresses the property named by the number
`i`, and a `TypeError` ends the loop. -/
def scrollLoop (len : Nat) : (remaining : Nat) → Cache → Cache × Except Err Unit
  | 0, cache => (cache, .ok ())
  | k + 1, cache =>
    match setDirty (toString (len - (k + 1))) cache with
    | none => (cache, .error .typeError)
    | some cache1 => scrollLoop len k cache1

/-- The listener the constructor attaches to the `scroll` event of `outerEl`, as a
function of the prepared-transition cache. -/
def scrollListener (cache : Cache) : Cache × Except Err Unit :=
  scrollLoop cache.length cache.length cache

/-- The property names of the cache (`Object.keys`). -/
def cacheKeys (cache : Cache) : List String :=
  cache.map Prod.fst

/-! ## Scroller reconciliation in the constructor -/

/-- A DOM node below the host surface: a text node, or an element with its tag,
its `data-wl-helper` attribute, its class name and its child nodes. -/
inductive Node where
  | text (data : String)
  | elem (tag : String) (helper : Option String) (className : String) (childNodes : List Node)

/-- The host surface `outerEl`, as far as the constructor touches it. -/
structure Surface where
  className : String
  childNodes : List Node

/-- The call `node.getAttribute('data-wl-helper')`; a text node has no such method. -/
def Node.getHelper : Node → Except Err (Option String)
  | .text _ => .error .typeError
  | .elem _ helper _ _ => .ok helper

/-- The call `node.setAttribute('data-wl-helper', 'scroller')`. -/
def Node.markScroller : Node → Except Err Node
  | .text _ => .error .typeError
  | .elem tag _ className childNodes => .ok (.elem tag (some "scroller") className childNodes)

/-- The child nodes of a node; a text node has none. -/
def Node.kids : Node → List Node
  | .text _ => []
  | .elem _ _ _ childNodes => childNodes

/-- Modelled from the spec: `$.unwrapChildren` (domhelpers.js is not part of the
sources): the wrapper, which is the only child, is removed and its children are
flattened back into the outer surface. -/
def unwrapChildren (outerEl : Surface) : Surface :=
  match outerEl.childNodes with
  | [wrapper] => { outerEl with childNodes := wrapper.kids }
  | _ => outerEl

/-- Modelled from the spec: `$.wrapChildren` (domhelpers.js is not part of the
sources): a fresh wrapper element takes all current children of the surface and
becomes its only child. -/
def wrapChildren (outerEl : Surface) : Surface :=
  { outerEl with childNodes := [.elem "div" none "" outerEl.childNodes] }

/-- The test `outerEl.childNodes.length === 1 &&
outerEl.childNodes[0].getAttribute('data-wl-helper') === 'scroller'`. -/
def detectScroller (outerEl : Surface) : Except Err Bool :=
  match outerEl.childNodes with
  | [only] => (only.getHelper).map (fun h => h == some "scroller")
  | _ => .ok false

/-- The statement `this.innerEl.setAttribute('data-wl-helper', 'scroller')` with
`innerEl = outerEl.childNodes[0]`. -/
def markFirstChild (outerEl : Surface) : Surface × Except Err Unit :=
  match outerEl.childNodes with
  | [] => (outerEl, .error .typeError)
  | first :: rest =>
    match first.markScroller with
    | .error e => (outerEl, .error e)
    | .ok marked => ({ outerEl with childNodes := marked :: rest }, .ok ())

/-- The scroller reconciliation of the constructor (the statements on `outerEl` from
the computation of `hasScroller` to the marking of the scroller), for a layer
whose data has the given `nativeScroll`.  Returns the surface left behind. -/
def reconcileScroller (outerEl : Surface) (nativeScroll : Bool) : Surface × Except Err Unit :=
  match detectScroller outerEl with
  | .error e => (outerEl, .error e)
  | .ok hasScroller =>
    let outerEl := if hasScroller && !nativeScroll then unwrapChildren outerEl else outerEl
    -- should we have a scroller but don't have one?
    let wrap := !hasScroller && nativeScroll
    let outerEl := if wrap then wrapChildren outerEl else outerEl
    let hasScroller := if wrap then true else hasScroller
    if hasScroller then
      let outerEl := { outerEl with className := outerEl.className ++ " nativescroll" }
      -- mark scroller as scroller in HTML
      markFirstChild outerEl
    else (outerEl, .ok ())

/-- Constructing a layer a second time on the surface the first construction
left behind; a throwing first construction leaves no second one to run. -/
def reconcileTwice (outerEl : Surface) (nativeScroll : Bool) : Surface × Except Err Unit :=
  match reconcileScroller outerEl nativeScroll with
  | (s, .ok ()) => reconcileScroller s nativeScroll
  | r => r

/-! ## Runs of a promise chain -/

/-- Whether the chain has fulfilled. -/
def Future.isFulfilled : Future → Bool
  | .fulfilled => true
  | _ => false

/-- A chain driven by a sequence of settlements of the layout futures it waits for. -/
def run (E : Collaborators) (L : Layer) (p : Future) : List Settlement → Layer × Future
  | [] => (L, p)
  | ev :: rest => run E (settle E L p ev).1 (settle E L p ev).2 rest

/-! ## Sample data -/

/-- The frame `intro` of the sample layer. -/
def introFrame : Frame := ⟨"intro"⟩

/-- The frame `main` of the sample layer. -/
def mainFrame : Frame := ⟨"main"⟩

/-- A layer with `children = ["intro", "main"]`, attached to a stage, current frame
`main`, nothing shown yet. -/
def sampleLayer : Layer :=
  { children := [introFrame, mainFrame]
    stage := some ⟨800, 600⟩
    currentFrame := some mainFrame }

/-- Sample collaborators: a frame that can scroll vertically, and a transformer
whose result tells which operation and which mode produced it. -/
def sampleCollaborators : Collaborators where
  getTransformData := fun _ _ _ =>
    { isScrollX := false, isScrollY := true, maxScrollX := 0, maxScrollY := 400 }
  getScrollTransform := fun _ _ _ _ intermediate =>
    if intermediate then "getScrollTransform/intermediate" else "getScrollTransform/final"
  getScrollIntermediateTransform := fun _ _ _ _ => "getScrollIntermediateTransform"

/-- The transform data the sample collaborators compute. -/
def sampleTransformData : TransformData :=
  { isScrollX := false, isScrollY := true, maxScrollX := 0, maxScrollY := 400 }

/-- The sample layer after `showFrame("intro")` and the fulfilment of `loadFrame`. -/
def shownLayer : Layer :=
  (run sampleCollaborators (showFrame sampleLayer "intro" .undefined).state
    (.awaitShowLoad introFrame {}) [.fulfil]).1

/-- The sample layer after the synchronous part of `transitionTo("intro")`. -/
def loadingLayer : Layer :=
  { sampleLayer with log := [.loadFrame introFrame] }

/-- A frame element with one paragraph in it. -/
def frameNode : Node := .elem "div" none "frame" [.elem "p" none "" []]

/-- A second, empty frame element. -/
def otherFrameNode : Node := .elem "div" none "frame" []

/-- A scroller wrapper around the given nodes. -/
def scrollerAround (nodes : List Node) : Node := .elem "div" (some "scroller") "" nodes

/-! # Theorems -/

/-! ## Argument resolution of `transitionTo` -/

/-- A first argument that is a descriptor is itself handed to the frame lookup:
`framename || transition.framename` stops at the truthy object, so the
descriptor's `framename` is never read. -/
theorem transitionTo_descriptor_first (L : Layer) (t : Transition) (b : TransitionArg) :
    transitionTo L (.obj t) b =
      ⟨L, .error (.thrown "transformTo: [object Object] does not exist in layer")⟩ := by
  rfl

/-- C1, evaluated on the code: on the sample layer, whose child `intro` exists,
`transitionTo({framename: 'intro'})` does not resolve `intro`.  It throws the
frame-not-found string for `[object Object]` and never calls `loadFrame`. -/
theorem transitionTo_omitted_name_not_resolved :
    getChildViewByName sampleLayer (.str "intro") = some introFrame ∧
    transitionTo sampleLayer (.obj { framename := some "intro" }) .undefined =
      ⟨sampleLayer, .error (.thrown "transformTo: [object Object] does not exist in layer")⟩ ∧
    (transitionTo sampleLayer (.obj { framename := some "intro" }) .undefined).state.log = [] :=
  ⟨rfl, rfl, rfl⟩

/-- With the first argument `undefined` and a descriptor as second argument the
missing-target string is thrown when the descriptor has no usable `framename`. -/
theorem transitionTo_undefined_name_no_framename (L : Layer) (t : Transition)
    (h : t.framename = none ∨ t.framename = some "") :
    transitionTo L .undefined (.obj t) = ⟨L, .error (.thrown "transformTo: no frame given")⟩ := by
  rcases h with h | h <;> simp [transitionTo, typeofObject, orFramename, truthy, readFramename, h]

/-- C2, evaluated on the code: `transitionTo()` with no arguments throws a
`TypeError` (the read `transition.framename` on `undefined`), and
`transitionTo(<descriptor without framename>)` throws the frame-not-found string
for `[object Object]`; neither throws "transformTo: no frame given".  No call
reaches `loadFrame`. -/
theorem transitionTo_no_arguments_typeError :
    transitionTo sampleLayer .undefined .undefined = ⟨sampleLayer, .error .typeError⟩ ∧
    transitionTo sampleLayer .null .undefined = ⟨sampleLayer, .error .typeError⟩ ∧
    transitionTo sampleLayer (.obj { duration := some "2s" }) .undefined =
      ⟨sampleLayer, .error (.thrown "transformTo: [object Object] does not exist in layer")⟩ :=
  ⟨rfl, rfl, rfl⟩

/-! ## The scroll listener -/

/-- C3, evaluated on the code: with one entry under the handle `t42` the
listener addresses the property `0`, finds `undefined` and throws a
`TypeError`; the entry is not marked.  With the keys `0` and `t42` the first
entry is marked and the second is not. -/
theorem scrollListener_opaque_key_typeError :
    scrollListener [("t42", ⟨false⟩)] = ([("t42", ⟨false⟩)], .error .typeError) ∧
    scrollListener [("0", ⟨false⟩), ("t42", ⟨false⟩)] =
      ([("0", ⟨true⟩), ("t42", ⟨false⟩)], .error .typeError) :=
  ⟨rfl, rfl⟩

/-- Marking an entry dirty keeps the property names of the cache. -/
theorem setDirty_keys (key : String) (cache cache1 : Cache)
    (h : setDirty key cache = some cache1) : cacheKeys cache1 = cacheKeys cache := by
  induction cache generalizing cache1 with
  | nil => simp [setDirty] at h
  | cons entry rest ih =>
    obtain ⟨k, e⟩ := entry
    unfold setDirty at h
    split_ifs at h with hk
    · cases h
      simp [cacheKeys]
    · cases hr : setDirty key rest with
      | none => simp [hr] at h
      | some r =>
        simp [hr] at h
        subst h
        simpa [cacheKeys] using ih r hr

/-- The loop of the scroll listener keeps the property names of the cache. -/
theorem scrollLoop_keys (len remaining : Nat) (cache : Cache) :
    cacheKeys (scrollLoop len remaining cache).1 = cacheKeys cache := by
  induction remaining generalizing cache with
  | zero => rfl
  | succ k ih =>
    unfold scrollLoop
    cases hs : setDirty (toString (len - (k + 1))) cache with
    | none => rfl
    | some cache1 =>
      simp only
      rw [ih cache1, setDirty_keys _ _ _ hs]

/-- The scroll listener adds and removes no entry, whether it throws or not. -/
theorem scrollListener_keys (cache : Cache) :
    cacheKeys (scrollListener cache).1 = cacheKeys cache :=
  scrollLoop_keys cache.length cache.length cache

/-! ## `gestureCanScroll` -/

/-- C4: with current-frame transform data `tfd` and offsets `scrollTop`,
`scrollLeft`, `gestureCanScroll(d)` returns a boolean, and returns `true` exactly
for `up` with vertical scrolling and `scrollTop > 0`, `down` with vertical
scrolling and `scrollTop < maxScrollY`, `left` with horizontal scrolling and
`scrollLeft > 0`, `right` with horizontal scrolling and
`scrollLeft < maxScrollX`; any other direction gives `false`. -/
theorem gestureCanScroll_iff (L : Layer) (d : String) (tfd : TransformData)
    (h : L._currentFrameTransformData = some tfd) :
    (gestureCanScroll L d = .ok true ∨ gestureCanScroll L d = .ok false) ∧
    (gestureCanScroll L d = .ok true ↔
      (d = "up" ∧ tfd.isScrollY = true ∧ L.scrollTop > 0) ∨
      (d = "down" ∧ tfd.isScrollY = true ∧ L.scrollTop < tfd.maxScrollY) ∨
      (d = "left" ∧ tfd.isScrollX = true ∧ L.scrollLeft > 0) ∨
      (d = "right" ∧ tfd.isScrollX = true ∧ L.scrollLeft < tfd.maxScrollX)) ∧
    (d ≠ "up" ∧ d ≠ "down" ∧ d ≠ "left" ∧ d ≠ "right" → gestureCanScroll L d = .ok false) := by
  simp only [gestureCanScroll, h]
  refine ⟨?_, ?_, ?_⟩
  · split_ifs <;> simp
  · split_ifs <;> simp_all
  · rintro ⟨h1, h2, h3, h4⟩
    simp [h1, h2, h3, h4]

/-- C4 at a concrete layer: scrolled to 10 of 400, `down` can scroll. -/
theorem gestureCanScroll_iff_witness :
    ({ sampleLayer with
        _currentFrameTransformData := some sampleTransformData
        scrollTop := 10 } : Layer)._currentFrameTransformData = some sampleTransformData ∧
    gestureCanScroll { sampleLayer with
        _currentFrameTransformData := some sampleTransformData
        scrollTop := 10 } "down" = .ok true :=
  ⟨rfl, ((gestureCanScroll_iff { sampleLayer with
        _currentFrameTransformData := some sampleTransformData
        scrollTop := 10 } "down" sampleTransformData rfl).2.1).2
      (Or.inr (Or.inl ⟨rfl, rfl, by decide⟩))⟩

/-! ## The promise chain of `transitionTo` -/

/-- A successful synchronous part of `transitionTo` has only called `loadFrame`:
the state is the old one with that call logged. -/
theorem transitionTo_ok_state (L L1 : Layer) (a : FrameArg) (b : TransitionArg) (p : Future)
    (h : transitionTo L a b = ⟨L1, .ok p⟩) :
    ∃ frame transition, p = .awaitLoad frame transition ∧
      L1 = { L with log := L.log ++ [.loadFrame frame] } := by
  unfold transitionTo at h
  simp only at h
  generalize (if typeofObject a = true then asTransition a else b) = t at h
  cases hor : orFramename a t with
  | error e => simp [hor] at h
  | ok fn =>
    simp only [hor] at h
    by_cases ht : truthy fn = true
    · cases hl : getChildViewByName L fn with
      | none => simp [ht, hl] at h
      | some frame =>
        simp only [ht, hl] at h
        simp at h
        exact ⟨frame, withDefaults t, h.2.symm, h.1.symm⟩
    · simp [ht] at h

/-- A non-empty name that resolves to a child makes the synchronous part of
`transitionTo` succeed: it calls `loadFrame` on that child and returns the chain
waiting for it, with the defaults laid under the caller's transition. -/
theorem transitionTo_resolved_name (L : Layer) (name : String) (b : TransitionArg)
    (frame : Frame) (hne : name ≠ "") (h : getChildViewByName L (.str name) = some frame) :
    transitionTo L (.str name) b =
      ⟨{ L with log := L.log ++ [.loadFrame frame] },
        .ok (.awaitLoad frame (withDefaults b))⟩ := by
  simp [transitionTo, typeofObject, orFramename, truthy, hne, h]

/-- A fulfilled chain stays fulfilled. -/
theorem run_fulfilled (E : Collaborators) (L : Layer) (evs : List Settlement) :
    run E L .fulfilled evs = (L, .fulfilled) := by
  induction evs with
  | nil => rfl
  | cons ev rest ih => cases ev <;> simpa [run, settle] using ih

/-- A rejected chain stays rejected. -/
theorem run_rejected (E : Collaborators) (L : Layer) (evs : List Settlement) :
    run E L .rejected evs = (L, .rejected) := by
  induction evs with
  | nil => rfl
  | cons ev rest ih => cases ev <;> simpa [run, settle] using ih

/-- The chain returned by `transitionTo` is fulfilled after a sequence of
settlements exactly when the sequence starts with two fulfilments: the one of
`loadFrame` and then the one of the layout's `transitionTo`. -/
theorem run_awaitLoad_fulfilled_iff (E : Collaborators) (L : Layer) (frame : Frame)
    (tr : Transition) (evs : List Settlement) :
    (run E L (.awaitLoad frame tr) evs).2 = .fulfilled ↔
      ∃ rest, evs = .fulfil :: .fulfil :: rest := by
  match evs with
  | [] => simp [run]
  | .reject :: rest => simp [run, settle, run_rejected]
  | [.fulfil] => simp [run, settle]
  | .fulfil :: .reject :: rest => simp [run, settle, run_rejected]
  | .fulfil :: .fulfil :: rest => simp [run, settle, run_fulfilled]

/-- C5: let a call of `transitionTo` resolve `frame` and return its chain,
leaving state `L1`.  The call has invoked `loadFrame(frame)` and nothing else.
When `loadFrame` fulfils (in a state `L2`), the chain is not fulfilled yet: it
invokes the layout's `transitionTo` and waits for it.  When that fulfils (in a
state `L3`), the chain fulfils, `getCurrentTransform()` is
`getScrollIntermediateTransform(tfd, scrollX or 0, scrollY or 0)` for the
transform data `tfd` of the frame against the stage and
`transition.startPosition`, and this value is the one passed to
`setLayerTransform`.  Over any sequence of settlements the chain is fulfilled
only if both futures fulfilled, in that order. -/
theorem transitionTo_fulfils_after_load_then_transition (E : Collaborators)
    (L L1 L2 L3 : Layer) (a : FrameArg) (b : TransitionArg) (frame : Frame) (tr : Transition)
    (h : transitionTo L a b = ⟨L1, .ok (.awaitLoad frame tr)⟩) :
    L1.log = L.log ++ [.loadFrame frame] ∧
    (Future.awaitLoad frame tr).isFulfilled = false ∧
    (settle E L2 (.awaitLoad frame tr) .fulfil).1.log =
      L2.log ++ [.layoutTransitionTo frame tr
        (E.getTransformData frame L2.stage tr.startPosition)
        (E.getScrollTransform L2 (E.getTransformData frame L2.stage tr.startPosition)
          (tr.scrollX.getD 0) (tr.scrollY.getD 0) true)] ∧
    (settle E L2 (.awaitLoad frame tr) .fulfil).2 =
      .awaitTransition (E.getTransformData frame L2.stage tr.startPosition) tr ∧
    (settle E L2 (.awaitLoad frame tr) .fulfil).2.isFulfilled = false ∧
    (settle E L3 (settle E L2 (.awaitLoad frame tr) .fulfil).2 .fulfil).2 = .fulfilled ∧
    getCurrentTransform (settle E L3 (settle E L2 (.awaitLoad frame tr) .fulfil).2 .fulfil).1 =
      some (E.getScrollIntermediateTransform L3
        (E.getTransformData frame L2.stage tr.startPosition)
        (tr.scrollX.getD 0) (tr.scrollY.getD 0)) ∧
    (settle E L3 (settle E L2 (.awaitLoad frame tr) .fulfil).2 .fulfil).1.log =
      L3.log ++ [.setLayerTransform (E.getScrollIntermediateTransform L3
        (E.getTransformData frame L2.stage tr.startPosition)
        (tr.scrollX.getD 0) (tr.scrollY.getD 0))] ∧
    (∀ evs, (run E L1 (.awaitLoad frame tr) evs).2 = .fulfilled →
      ∃ rest, evs = .fulfil :: .fulfil :: rest) := by
  obtain ⟨frame1, tr1, hp, hL⟩ := transitionTo_ok_state L L1 a b _ h
  injection hp with hf _
  subst hf
  refine ⟨by simp [hL], rfl, rfl, rfl, rfl, rfl, rfl, rfl, ?_⟩
  intro evs hevs
  exact (run_awaitLoad_fulfilled_iff E L1 frame tr evs).1 hevs

/-- C5 on the scenario of the specification: `transitionTo("intro", {duration: "2s"})`
on the sample layer, both futures fulfilling one after the other. -/
theorem transitionTo_fulfils_after_load_then_transition_witness :
    transitionTo sampleLayer (.str "intro") (.obj { duration := some "2s" }) =
      ⟨{ sampleLayer with log := [.loadFrame introFrame] },
        .ok (.awaitLoad introFrame { type := some "default", duration := some "2s" })⟩ ∧
    (run sampleCollaborators { sampleLayer with log := [.loadFrame introFrame] }
        (.awaitLoad introFrame { type := some "default", duration := some "2s" })
        [.fulfil, .fulfil]).2 = .fulfilled ∧
    getCurrentTransform (run sampleCollaborators
        { sampleLayer with log := [.loadFrame introFrame] }
        (.awaitLoad introFrame { type := some "default", duration := some "2s" })
        [.fulfil, .fulfil]).1 = some "getScrollIntermediateTransform" ∧
    ({ sampleLayer with log := [.loadFrame introFrame] } : Layer).log =
      sampleLayer.log ++ [.loadFrame introFrame] :=
  ⟨rfl, rfl, rfl,
    (transitionTo_fulfils_after_load_then_transition sampleCollaborators sampleLayer
      { sampleLayer with log := [.loadFrame introFrame] } sampleLayer sampleLayer
      (.str "intro") (.obj { duration := some "2s" }) introFrame
      { type := some "default", duration := some "2s" } rfl).1⟩

/-- C9, refuted as stated: on the sample layer, after `transitionTo("intro")`
and the fulfilment of `loadFrame`, the stored transform is the one
`getScrollTransform` gives with the intermediate option requested, which
differs from the one it gives in final-transform mode. -/
theorem transitionTo_stores_intermediate_not_final :
    transitionTo sampleLayer (.str "intro") .undefined =
      ⟨loadingLayer, .ok (.awaitLoad introFrame (withDefaults .undefined))⟩ ∧
    getCurrentTransform
        (settle sampleCollaborators loadingLayer
          (.awaitLoad introFrame (withDefaults .undefined)) .fulfil).1 =
      some "getScrollTransform/intermediate" ∧
    getCurrentTransform
        (settle sampleCollaborators loadingLayer
          (.awaitLoad introFrame (withDefaults .undefined)) .fulfil).1 ≠
      some (sampleCollaborators.getScrollTransform loadingLayer
        (sampleCollaborators.getTransformData introFrame loadingLayer.stage
          (withDefaults .undefined).startPosition)
        ((withDefaults .undefined).scrollX.getD 0) ((withDefaults .undefined).scrollY.getD 0)
        false) := by
  refine ⟨rfl, rfl, ?_⟩
  decide

/-- C9, amended: let a call of `transitionTo` resolve `frame` and return its
chain.  The call itself stores no transform.  When `loadFrame` fulfils (in a
state `L2`), the transform stored as current transform and passed to the
layout's `transitionTo` is `getScrollTransform(tfd, scrollX or 0, scrollY or 0,
true)`: the intermediate option is requested. -/
theorem transitionTo_stores_intermediate (E : Collaborators) (L L1 L2 : Layer) (a : FrameArg)
    (b : TransitionArg) (frame : Frame) (tr : Transition)
    (h : transitionTo L a b = ⟨L1, .ok (.awaitLoad frame tr)⟩) :
    getCurrentTransform L1 = getCurrentTransform L ∧
    getCurrentTransform (settle E L2 (.awaitLoad frame tr) .fulfil).1 =
      some (E.getScrollTransform L2 (E.getTransformData frame L2.stage tr.startPosition)
        (tr.scrollX.getD 0) (tr.scrollY.getD 0) true) ∧
    (settle E L2 (.awaitLoad frame tr) .fulfil).1.log =
      L2.log ++ [.layoutTransitionTo frame tr
        (E.getTransformData frame L2.stage tr.startPosition)
        (E.getScrollTransform L2 (E.getTransformData frame L2.stage tr.startPosition)
          (tr.scrollX.getD 0) (tr.scrollY.getD 0) true)] := by
  obtain ⟨frame1, tr1, _, hL⟩ := transitionTo_ok_state L L1 a b _ h
  refine ⟨by simp [hL, getCurrentTransform], rfl, rfl⟩

/-- C9, amended, on the sample layer: `transitionTo("intro", {scrollY: 30})`. -/
theorem transitionTo_stores_intermediate_witness :
    transitionTo sampleLayer (.str "intro") (.obj { scrollY := some 30 }) =
      ⟨loadingLayer, .ok (.awaitLoad introFrame
        { type := some "default", duration := some "1s", scrollY := some 30 })⟩ ∧
    getCurrentTransform (settle sampleCollaborators loadingLayer
        (.awaitLoad introFrame
          { type := some "default", duration := some "1s", scrollY := some 30 }) .fulfil).1 =
      some (sampleCollaborators.getScrollTransform loadingLayer sampleTransformData 0 30 true) :=
  ⟨rfl, (transitionTo_stores_intermediate sampleCollaborators sampleLayer loadingLayer
    loadingLayer (.str "intro") (.obj { scrollY := some 30 }) introFrame
    { type := some "default", duration := some "1s", scrollY := some 30 } rfl).2.1⟩

/-! ## Unresolvable frame names -/

/-- C8, refuted as stated: the empty string resolves to no child of the sample
layer, yet `transitionTo("", {framename: "intro"})` does not fail: it falls back
to the descriptor's name and calls `loadFrame`; and `transitionTo("")` throws a
`TypeError`, not the frame-not-found string. -/
theorem transitionTo_empty_name_not_frameNotFound :
    getChildViewByName sampleLayer (.str "") = none ∧
    transitionTo sampleLayer (.str "") (.obj { framename := some "intro" }) =
      ⟨loadingLayer, .ok (.awaitLoad introFrame
        { framename := some "intro", type := some "default", duration := some "1s" })⟩ ∧
    (transitionTo sampleLayer (.str "") (.obj { framename := some "intro" })).state.log =
      [.loadFrame introFrame] ∧
    (¬ ∃ e, (transitionTo sampleLayer (.str "") (.obj { framename := some "intro" })).result =
      .error e) ∧
    transitionTo sampleLayer (.str "") .undefined = ⟨sampleLayer, .error .typeError⟩ := by
  refine ⟨rfl, rfl, rfl, ?_, rfl⟩
  rintro ⟨e, he⟩
  have hok : (transitionTo sampleLayer (.str "") (.obj { framename := some "intro" })).result =
      .ok (.awaitLoad introFrame
        { framename := some "intro", type := some "default", duration := some "1s" }) := rfl
  rw [hok] at he
  cases he

/-- C8, amended: for a frame name that resolves to no child, `transitionTo(name, t)`
with `name` not the empty string, and `showFrame(name, s)` on a layer whose
stage is set, throw "transformTo: <name> does not exist in layer" and leave the
whole layer state as it was: no `loadFrame` call is logged, and
`currentTransform`, `currentFrame` and the prepared-transition cache are
unchanged. -/
theorem unresolved_name_throws_before_load (L : Layer) (name : String) (t s : TransitionArg)
    (h : getChildViewByName L (.str name) = none) :
    (name ≠ "" → transitionTo L (.str name) t =
      ⟨L, .error (.thrown ("transformTo: " ++ name ++ " does not exist in layer"))⟩) ∧
    (L.stage ≠ none → showFrame L name s =
      ⟨L, .error (.thrown ("transformTo: " ++ name ++ " does not exist in layer"))⟩) := by
  constructor
  · intro hne
    simp [transitionTo, typeofObject, orFramename, truthy, hne, h, toStr]
  · intro hst
    cases hs : L.stage with
    | none => exact absurd hs hst
    | some st => simp [showFrame, hs, h]

/-- C8, amended, on the sample layer with the name `ghost`. -/
theorem unresolved_name_throws_before_load_witness :
    getChildViewByName sampleLayer (.str "ghost") = none ∧
    transitionTo sampleLayer (.str "ghost") (.obj { duration := some "2s" }) =
      ⟨sampleLayer, .error (.thrown "transformTo: ghost does not exist in layer")⟩ ∧
    showFrame sampleLayer "ghost" .undefined =
      ⟨sampleLayer, .error (.thrown "transformTo: ghost does not exist in layer")⟩ :=
  ⟨rfl,
    (unresolved_name_throws_before_load sampleLayer "ghost" (.obj { duration := some "2s" })
      .undefined rfl).1 (by decide),
    (unresolved_name_throws_before_load sampleLayer "ghost" (.obj { duration := some "2s" })
      .undefined rfl).2 (by decide)⟩

/-! ## `_renderChildPosition` -/

/-- The three calls of `_renderChildPosition`, in order; the transform handed to
`renderFramePosition` is the property `_currentTransform`. -/
theorem renderChildPosition_log (L : Layer) (c : Frame) :
    (_renderChildPosition L c).log =
      L.log ++ [.disableObserver c, .renderFramePosition c L._currentTransform,
        .enableObserver c] :=
  rfl

/-- C10, evaluated on the code: after `showFrame("intro")` has completed on the
sample layer, `getCurrentTransform()` returns the transform just stored, but
`_renderChildPosition` hands `undefined` to `renderFramePosition`: it reads
`_currentTransform`, a property nothing in the file assigns. -/
theorem renderChildPosition_ignores_current_transform :
    showFrame sampleLayer "intro" .undefined =
      ⟨loadingLayer, .ok (some (.awaitShowLoad introFrame {}))⟩ ∧
    getCurrentTransform shownLayer = some "getScrollTransform/final" ∧
    (_renderChildPosition shownLayer introFrame).log =
      shownLayer.log ++ [.disableObserver introFrame, .renderFramePosition introFrame none,
        .enableObserver introFrame] :=
  ⟨rfl, rfl, rfl⟩

/-! ## Scroller reconciliation -/

/-- C6, evaluated on the code: a surface whose only child is a scroller wrapper
around two frames, `nativeScroll` not requested.  The wrapper is unwrapped, but
`hasScroller` stays `true`: the surface gets the class `nativescroll` and the
first frame gets the scroller marker. -/
theorem reconcileScroller_unwrap_marks_first_child :
    reconcileScroller ⟨"layer", [scrollerAround [frameNode, otherFrameNode]]⟩ false =
      (⟨"layer nativescroll",
        [.elem "div" (some "scroller") "frame" [.elem "p" none "" []], otherFrameNode]⟩,
        .ok ()) :=
  rfl

/-- C7, evaluated on the code: a surface whose only child is a scroller wrapper
around one frame, `nativeScroll` not requested.  The first construction unwraps
the wrapper and marks the frame as scroller; the second one takes the frame for
a wrapper and unwraps it too, so the frame element is gone and its paragraph is
a child of the surface. -/
theorem reconcileScroller_twice_unwraps_again :
    (reconcileScroller ⟨"layer", [scrollerAround [frameNode]]⟩ false).1.childNodes =
      [.elem "div" (some "scroller") "frame" [.elem "p" none "" []]] ∧
    (reconcileTwice ⟨"layer", [scrollerAround [frameNode]]⟩ false).1.childNodes =
      [.elem "p" (some "scroller") "" []] ∧
    (reconcileTwice ⟨"layer", [scrollerAround [frameNode]]⟩ false).1.childNodes ≠
      (reconcileScroller ⟨"layer", [scrollerAround [frameNode]]⟩ false).1.childNodes := by
  have h1 : (reconcileScroller ⟨"layer", [scrollerAround [frameNode]]⟩ false).1.childNodes =
      [.elem "div" (some "scroller") "frame" [.elem "p" none "" []]] := rfl
  have h2 : (reconcileTwice ⟨"layer", [scrollerAround [frameNode]]⟩ false).1.childNodes =
      [.elem "p" (some "scroller") "" []] := rfl
  refine ⟨h1, h2, ?_⟩
  rw [h1, h2]
  simp

/-- With `nativeScroll` requested, a second construction leaves the child nodes
as the first one left them: the wrapper is found and nothing is wrapped again. -/
theorem reconcileTwice_nativeScroll_childNodes (outerEl : Surface)
    (h : (reconcileScroller outerEl true).2 = .ok ()) :
    (reconcileTwice outerEl true).1.childNodes =
      (reconcileScroller outerEl true).1.childNodes ∧
    (reconcileTwice outerEl true).2 = .ok () := by
  obtain ⟨cls, nodes⟩ := outerEl
  match nodes with
  | [] => exact ⟨rfl, rfl⟩
  | [.text d] => simp [reconcileScroller, detectScroller, Node.getHelper, Except.map] at h
  | [.elem tag helper c kids] =>
    by_cases hh : helper = some "scroller"
    · subst hh
      exact ⟨rfl, rfl⟩
    · have hb : (helper == some "scroller") = false := by simpa using hh
      simp [reconcileTwice, reconcileScroller, detectScroller, Node.getHelper, Except.map, hb,
        wrapChildren, markFirstChild, Node.markScroller]
  | a :: b :: rest => exact ⟨rfl, rfl⟩

/-- Without `nativeScroll` and without a scroller wrapper the constructor leaves
the surface alone. -/
theorem reconcileScroller_no_scroller (outerEl : Surface)
    (h : detectScroller outerEl = .ok false) :
    reconcileScroller outerEl false = (outerEl, .ok ()) := by
  simp [reconcileScroller, h]

end LayerJS
